import Mathlib

/-!
Shallow embedding of `examples/openwebui_integration.py` (ml-notes OpenWebUI
integration client): the `MLNotesAPI` transport client, the note-operations
facade, and the auto-tag orchestrator, together with theorems settling the
specification claims about them.

HTTP transport is modelled as an oracle `Request → HttpOutcome` passed to each
operation; every operation returns the JSON result value together with the list
of HTTP requests it issued, so "number of remote calls" is directly observable.
-/

set_option autoImplicit false

namespace MLNotes

/-- JSON values, the payloads and results the client manipulates.
Object fields are an ordered association list, matching Python dict
insertion order. -/
inductive Json where
  | null
  | bool (b : Bool)
  | num (n : Int)
  | str (s : String)
  | arr (xs : List Json)
  | obj (fields : List (String × Json))
deriving Repr

/-- Look a key up in a JSON object (`None` for non-objects), as Python
`dict` access / `in` does on the decoded payloads. -/
def jsonLookup (j : Json) (k : String) : Option Json :=
  match j with
  | Json.obj fields => fields.lookup k
  | _ => none

/-- One HTTP request as handed to `requests.request(method, url, timeout=30, **kwargs)`:
the method, the fully built URL, the timeout, and the optional `json=` body and
`params=` query arguments. -/
structure Request where
  method : String
  url : String
  timeout : Nat
  jsonBody : Option Json
  params : Option Json
deriving Repr

/-- The possible outcomes of one `requests.request` call followed by
`raise_for_status()` and `.json()`:
a 2xx response with a parseable JSON body, or one of the transport-level
failures, each raised by the `requests` library as a `RequestException`
carrying the parameters its diagnostic message is formatted from. -/
inductive HttpOutcome where
  | ok (body : Json)
  | connectionError (host : String) (port : Nat) (detail : String)
  | timeout (host : String) (port : Nat) (secs : Nat)
  | httpError (status : Nat) (reason : String) (url : String)
  | jsonDecodeError (line col pos : Nat)
deriving Repr

/-- Stringification, as Python str(e), of each `requests.exceptions.RequestException` subclass the
transport can raise, following the message formats the `requests`/`urllib3`
libraries produce (`MaxRetryError`, `ReadTimeoutError`, `HTTPError` from
`raise_for_status`, and `JSONDecodeError`). Unused on `ok`. -/
def excStr : HttpOutcome → String
  | HttpOutcome.ok _ => ""
  | HttpOutcome.connectionError host port detail =>
      "HTTPConnectionPool(host=" ++ host ++ ", port=" ++ toString port ++
        "): Max retries exceeded with url: " ++ detail
  | HttpOutcome.timeout host port secs =>
      "HTTPConnectionPool(host=" ++ host ++ ", port=" ++ toString port ++
        "): Read timed out. (read timeout=" ++ toString secs ++ ")"
  | HttpOutcome.httpError status reason url =>
      toString status ++ (if status < 500 then " Client Error: " else " Server Error: ") ++
        reason ++ " for url: " ++ url
  | HttpOutcome.jsonDecodeError line col pos =>
      "Expecting value: line " ++ toString line ++ " column " ++ toString col ++
        " (char " ++ toString pos ++ ")"

/-- Python rstrip with a slash argument: drop every trailing slash. -/
def pyRstripSlash (s : String) : String :=
  String.mk (((s.data.reverse).dropWhile (fun c => c == '/')).reverse)

/-- Python truthiness of an `Optional[List[int]]`: `None` and `[]` are falsy. -/
def pyTruthy : Option (List Int) → Bool
  | none => false
  | some l => !l.isEmpty

/-- The configured default base URL, `ML_NOTES_BASE_URL`. -/
def ML_NOTES_BASE_URL : String := "http://localhost:8080/api/v1"

/-- The `MLNotesAPI` client object: its only state is the base URL. -/
structure MLNotesAPI where
  base_url : String
deriving Repr, DecidableEq

/-- Constructor `MLNotesAPI.__init__`: store the base URL with trailing slashes stripped. -/
def MLNotesAPI.init (base_url : String) : MLNotesAPI :=
  ⟨pyRstripSlash base_url⟩

/-- Constructor `MLNotesAPI.__init__` applied to its default argument `ML_NOTES_BASE_URL`. -/
def MLNotesAPI.initDefault : MLNotesAPI :=
  MLNotesAPI.init ML_NOTES_BASE_URL

/-- The fixed error result `{"success": False, "error": e}` the client builds
for a transport failure. -/
def errResult (e : String) : Json :=
  Json.obj [("success", Json.bool false), ("error", Json.str e)]

/-- The JSON value the `try` block of `_make_request` yields for one HTTP
outcome: the parsed body of a 2xx response, or the
`{"success": False, "error": str(e)}` dictionary built in the
`except requests.exceptions.RequestException` handler. -/
def resultOf : HttpOutcome → Json
  | HttpOutcome.ok body => body
  | o => errResult (excStr o)

/-- Method `MLNotesAPI._make_request`: build `url = f"{self.base_url}{endpoint}"`,
issue `requests.request(method, url, timeout=30, **kwargs)` through the
transport oracle, return the parsed body on success and
`{"success": False, "error": str(e)}` on any `RequestException`.
Returns the result paired with the list of HTTP requests issued (always
exactly one here). -/
def MLNotesAPI.make_request (api : MLNotesAPI) (transport : Request → HttpOutcome)
    (method endpoint : String) (jsonBody params : Option Json) :
    Json × List Request :=
  let url := api.base_url ++ endpoint
  let req : Request := ⟨method, url, 30, jsonBody, params⟩
  (resultOf (transport req), [req])

/-- Method `MLNotesAPI.health_check`: `GET /health`. -/
def MLNotesAPI.health_check (api : MLNotesAPI) (transport : Request → HttpOutcome) :
    Json × List Request :=
  api.make_request transport "GET" "/health" none none

/-- Method `MLNotesAPI.search_notes`: `POST /notes/search` with body
`{"query": query, "limit": limit, "use_vector": use_vector}`. -/
def MLNotesAPI.search_notes (api : MLNotesAPI) (transport : Request → HttpOutcome)
    (query : String) (limit : Int) (use_vector : Bool) : Json × List Request :=
  let data := Json.obj [("query", Json.str query), ("limit", Json.num limit),
    ("use_vector", Json.bool use_vector)]
  api.make_request transport "POST" "/notes/search" (some data) none

/-- Method `MLNotesAPI.search_notes` with its Python default arguments
`limit=5, use_vector=True` filled in. -/
def MLNotesAPI.search_notes_default (api : MLNotesAPI) (transport : Request → HttpOutcome)
    (query : String) : Json × List Request :=
  api.search_notes transport query 5 true

/-- Method `MLNotesAPI.create_note`: `POST /notes` with body
`{"title": ..., "content": ..., "tags": ..., "auto_tag": ...}`. -/
def MLNotesAPI.create_note (api : MLNotesAPI) (transport : Request → HttpOutcome)
    (title content tags : String) (auto_tag : Bool) : Json × List Request :=
  let data := Json.obj [("title", Json.str title), ("content", Json.str content),
    ("tags", Json.str tags), ("auto_tag", Json.bool auto_tag)]
  api.make_request transport "POST" "/notes" (some data) none

/-- Method `MLNotesAPI.get_note`: `GET /notes/{note_id}`. -/
def MLNotesAPI.get_note (api : MLNotesAPI) (transport : Request → HttpOutcome)
    (note_id : Int) : Json × List Request :=
  api.make_request transport "GET" ("/notes/" ++ toString note_id) none none

/-- Method `MLNotesAPI.list_notes`: `GET /notes` with query parameters
`{"limit": limit, "offset": offset}`. -/
def MLNotesAPI.list_notes (api : MLNotesAPI) (transport : Request → HttpOutcome)
    (limit offset : Int) : Json × List Request :=
  let params := Json.obj [("limit", Json.num limit), ("offset", Json.num offset)]
  api.make_request transport "GET" "/notes" none (some params)

/-- Method `MLNotesAPI.suggest_tags`: `POST /auto-tag/suggest/{note_id}`. -/
def MLNotesAPI.suggest_tags (api : MLNotesAPI) (transport : Request → HttpOutcome)
    (note_id : Int) : Json × List Request :=
  api.make_request transport "POST" ("/auto-tag/suggest/" ++ toString note_id) none none

/-- The local selection-error result
`{"success": False, "error": "Must specify notes to tag"}` returned by
`auto_tag_notes` when no selection field is set. -/
def selectionErrorResult : Json :=
  Json.obj [("success", Json.bool false), ("error", Json.str "Must specify notes to tag")]

/-- Method `MLNotesAPI.auto_tag_notes`: build
`data = {"apply": apply, "overwrite": False}`, then the `if/elif` chain
`all_notes` / `recent > 0` / `note_ids` (Python truthiness), adding the single
selection key to `data`, and `POST /auto-tag/apply`; with no selection it
returns the local error without issuing any request. -/
def MLNotesAPI.auto_tag_notes (api : MLNotesAPI) (transport : Request → HttpOutcome)
    (note_ids : Option (List Int)) (all_notes : Bool) (recent : Int) (apply : Bool) :
    Json × List Request :=
  let data := [("apply", Json.bool apply), ("overwrite", Json.bool false)]
  if all_notes then
    api.make_request transport "POST" "/auto-tag/apply"
      (some (Json.obj (data ++ [("all", Json.bool true)]))) none
  else if recent > 0 then
    api.make_request transport "POST" "/auto-tag/apply"
      (some (Json.obj (data ++ [("recent", Json.num recent)]))) none
  else if pyTruthy note_ids then
    api.make_request transport "POST" "/auto-tag/apply"
      (some (Json.obj (data ++ [("note_ids", Json.arr ((note_ids.getD []).map Json.num))]))) none
  else
    (selectionErrorResult, [])

/-- Method `MLNotesAPI.auto_tag_notes` with its Python default arguments
`note_ids=None, all_notes=False, recent=0, apply=False` filled in. -/
def MLNotesAPI.auto_tag_notes_default (api : MLNotesAPI) (transport : Request → HttpOutcome) :
    Json × List Request :=
  api.auto_tag_notes transport none false 0 false

/-- Method `MLNotesAPI.get_stats`: `GET /stats`. -/
def MLNotesAPI.get_stats (api : MLNotesAPI) (transport : Request → HttpOutcome) :
    Json × List Request :=
  api.make_request transport "GET" "/stats" none none

/-- The JSON body of the single request an operation issued, if any. -/
def payloadOf (out : Json × List Request) : Option Json :=
  out.2.head?.bind (fun r => r.jsonBody)

/-- Which of the three selection keys are present in the payload an
operation issued (in the fixed order all, recent, note_ids). -/
def selectionKeys (out : Json × List Request) : List String :=
  (["all", "recent", "note_ids"]).filter
    (fun k => ((payloadOf out).bind (fun p => jsonLookup p k)).isSome)

/-- A transport oracle whose every response is a 2xx with body `null`;
used to instantiate theorems at concrete inputs. -/
def okNull : Request → HttpOutcome := fun _ => HttpOutcome.ok Json.null

/-- A transport oracle whose remote answers with a 2xx body that happens to
equal the local selection-error dictionary. -/
def echoSelectionError : Request → HttpOutcome := fun _ => HttpOutcome.ok selectionErrorResult

/-- Modelled from the spec: the auto-tag orchestrator as the specification
describes it, with a caller-supplied `overwrite` argument (default false)
forwarded verbatim into the payload; the source's `auto_tag_notes` has no
such parameter. -/
def MLNotesAPI.auto_tag_notes_spec (api : MLNotesAPI) (transport : Request → HttpOutcome)
    (note_ids : Option (List Int)) (all_notes : Bool) (recent : Int)
    (apply overwrite : Bool) : Json × List Request :=
  let data := [("apply", Json.bool apply), ("overwrite", Json.bool overwrite)]
  if all_notes then
    api.make_request transport "POST" "/auto-tag/apply"
      (some (Json.obj (data ++ [("all", Json.bool true)]))) none
  else if recent > 0 then
    api.make_request transport "POST" "/auto-tag/apply"
      (some (Json.obj (data ++ [("recent", Json.num recent)]))) none
  else if pyTruthy note_ids then
    api.make_request transport "POST" "/auto-tag/apply"
      (some (Json.obj (data ++ [("note_ids", Json.arr ((note_ids.getD []).map Json.num))]))) none
  else
    (selectionErrorResult, [])

/-- Head of the remainder after dropWhile never satisfies the predicate. -/
theorem head?_dropWhile_false {p : Char → Bool} {l : List Char} {a : Char}
    (h : (l.dropWhile p).head? = some a) : p a = false := by
  induction l with
  | nil => simp [List.dropWhile] at h
  | cons x xs ih =>
    by_cases hp : p x = true
    · rw [List.dropWhile_cons, if_pos hp] at h
      exact ih h
    · rw [List.dropWhile_cons, if_neg hp] at h
      simp at h
      subst h
      exact Bool.eq_false_iff.mpr hp

/-- The stripped base URL never ends with a slash. -/
theorem pyRstripSlash_no_trailing_slash (s : String) :
    (pyRstripSlash s).data.getLast? ≠ some '/' := by
  intro h
  have h2 : (((s.data.reverse).dropWhile (fun c => c == '/')).reverse).getLast? = some '/' := h
  rw [List.getLast?_reverse] at h2
  have h3 := head?_dropWhile_false h2
  simp at h3

/-- A string append is non-empty when its left part is. -/
theorem append_ne_empty_left (a b : String) (h : a ≠ "") : a ++ b ≠ "" := by
  intro hc
  apply h
  apply String.ext
  have hd := congrArg String.data hc
  rw [String.data_append] at hd
  exact (List.append_eq_nil.mp hd).1

/-- A string append is non-empty when its right part is. -/
theorem append_ne_empty_right (a b : String) (h : b ≠ "") : a ++ b ≠ "" := by
  intro hc
  apply h
  apply String.ext
  have hd := congrArg String.data hc
  rw [String.data_append] at hd
  exact (List.append_eq_nil.mp hd).2

/-- Every transport-failure diagnostic string is non-empty. -/
theorem excStr_failure_ne_empty (host detail reason url : String)
    (port secs status line col pos : Nat) :
    excStr (HttpOutcome.connectionError host port detail) ≠ ""
    ∧ excStr (HttpOutcome.timeout host port secs) ≠ ""
    ∧ excStr (HttpOutcome.httpError status reason url) ≠ ""
    ∧ excStr (HttpOutcome.jsonDecodeError line col pos) ≠ "" := by
  refine ⟨?_, ?_, ?_, ?_⟩
  · exact append_ne_empty_left _ _ (append_ne_empty_left _ _ (append_ne_empty_left _ _ (append_ne_empty_left _ _ (append_ne_empty_left _ _ (by decide)))))
  · exact append_ne_empty_left _ _ (append_ne_empty_left _ _ (append_ne_empty_left _ _ (append_ne_empty_left _ _ (append_ne_empty_left _ _ (append_ne_empty_left _ _ (by decide))))))
  · refine append_ne_empty_left _ _ (append_ne_empty_left _ _ (append_ne_empty_left _ _
      (append_ne_empty_right _ _ ?_)))
    split <;> decide
  · exact append_ne_empty_left _ _ (append_ne_empty_left _ _ (append_ne_empty_left _ _ (append_ne_empty_left _ _ (append_ne_empty_left _ _ (append_ne_empty_left _ _ (by decide))))))

/-- C1: selection-mode resolution in `auto_tag_notes` is strictly prioritized
and mutually exclusive: with `all_notes` the payload carries only the `all`
key; else with `recent > 0` only the `recent` key; else with a truthy
`note_ids` only the `note_ids` key; and the input
`all=true, recent=5, note_ids=[1,2]` resolves to All. -/
theorem auto_tag_selection_priority (api : MLNotesAPI) (t : Request → HttpOutcome)
    (note_ids : Option (List Int)) (all_notes : Bool) (recent : Int) (apply : Bool) :
    payloadOf (api.auto_tag_notes t note_ids all_notes recent apply)
      = (if all_notes then
          some (Json.obj [("apply", Json.bool apply), ("overwrite", Json.bool false),
            ("all", Json.bool true)])
        else if recent > 0 then
          some (Json.obj [("apply", Json.bool apply), ("overwrite", Json.bool false),
            ("recent", Json.num recent)])
        else if pyTruthy note_ids then
          some (Json.obj [("apply", Json.bool apply), ("overwrite", Json.bool false),
            ("note_ids", Json.arr ((note_ids.getD []).map Json.num))])
        else none)
    ∧ selectionKeys (api.auto_tag_notes t note_ids all_notes recent apply)
      = (if all_notes then ["all"] else if recent > 0 then ["recent"]
         else if pyTruthy note_ids then ["note_ids"] else [])
    ∧ selectionKeys (api.auto_tag_notes t (some [1, 2]) true 5 apply) = ["all"] := by
  refine ⟨?_, ?_, rfl⟩ <;>
  · unfold MLNotesAPI.auto_tag_notes
    split
    · rfl
    · split
      · rfl
      · split
        · rfl
        · rfl

/-- C2: calling `auto_tag_notes` with no selection field set (note_ids absent
or empty, all_notes false, recent 0) returns the local
`success:false, "Must specify notes to tag"` result and issues zero
HTTP requests. -/
theorem auto_tag_no_selection_local_error (api : MLNotesAPI)
    (t : Request → HttpOutcome) (apply : Bool) :
    api.auto_tag_notes t none false 0 apply
      = (Json.obj [("success", Json.bool false),
          ("error", Json.str "Must specify notes to tag")], [])
    ∧ api.auto_tag_notes t (some []) false 0 apply
      = (Json.obj [("success", Json.bool false),
          ("error", Json.str "Must specify notes to tag")], []) :=
  ⟨rfl, rfl⟩

/-- C3: for every transport-level failure (connection refused, timeout,
non-2xx status, unparsable body), `_make_request` does not raise but returns
`success:false` with the non-empty diagnostic string of the exception. -/
theorem make_request_failure_uniform (api : MLNotesAPI) (method endpoint : String)
    (jsonBody params : Option Json) (host detail reason url : String)
    (port secs status line col pos : Nat) :
    ((api.make_request (fun _ => HttpOutcome.connectionError host port detail)
        method endpoint jsonBody params).1
      = Json.obj [("success", Json.bool false),
          ("error", Json.str (excStr (HttpOutcome.connectionError host port detail)))]
     ∧ excStr (HttpOutcome.connectionError host port detail) ≠ "")
    ∧ ((api.make_request (fun _ => HttpOutcome.timeout host port secs)
        method endpoint jsonBody params).1
      = Json.obj [("success", Json.bool false),
          ("error", Json.str (excStr (HttpOutcome.timeout host port secs)))]
     ∧ excStr (HttpOutcome.timeout host port secs) ≠ "")
    ∧ ((api.make_request (fun _ => HttpOutcome.httpError status reason url)
        method endpoint jsonBody params).1
      = Json.obj [("success", Json.bool false),
          ("error", Json.str (excStr (HttpOutcome.httpError status reason url)))]
     ∧ excStr (HttpOutcome.httpError status reason url) ≠ "")
    ∧ ((api.make_request (fun _ => HttpOutcome.jsonDecodeError line col pos)
        method endpoint jsonBody params).1
      = Json.obj [("success", Json.bool false),
          ("error", Json.str (excStr (HttpOutcome.jsonDecodeError line col pos)))]
     ∧ excStr (HttpOutcome.jsonDecodeError line col pos) ≠ "") := by
  obtain ⟨h1, h2, h3, h4⟩ := excStr_failure_ne_empty host detail reason url port secs status line col pos
  exact ⟨⟨rfl, h1⟩, ⟨rfl, h2⟩, ⟨rfl, h3⟩, ⟨rfl, h4⟩⟩

/-- C4 counterexample: a failing outcome of `auto_tag_notes` is not decidable
from the returned value alone: a remote body that happens to equal the local
selection-error dictionary yields exactly the same result value as the local
selection failure, yet one execution made one HTTP call and the other none. -/
theorem selection_error_indistinguishable_example :
    ((MLNotesAPI.initDefault).auto_tag_notes echoSelectionError (some [1]) false 0 false).1
      = ((MLNotesAPI.initDefault).auto_tag_notes echoSelectionError none false 0 false).1
    ∧ ((MLNotesAPI.initDefault).auto_tag_notes echoSelectionError (some [1]) false 0 false).2.length = 1
    ∧ ((MLNotesAPI.initDefault).auto_tag_notes echoSelectionError none false 0 false).2.length = 0 :=
  ⟨rfl, rfl, rfl⟩

/-- C4 (amended): the local selection error is the fixed value
`success:false, "Must specify notes to tag"`, and whenever no transport or
remote outcome produces exactly that value, a result of `auto_tag_notes`
equals it if and only if the call made zero HTTP requests. -/
theorem selection_error_distinguishable (api : MLNotesAPI) (t : Request → HttpOutcome)
    (note_ids : Option (List Int)) (all_notes : Bool) (recent : Int) (apply : Bool)
    (h : ∀ r : Request, resultOf (t r) ≠ selectionErrorResult) :
    (api.auto_tag_notes t note_ids all_notes recent apply).1 = selectionErrorResult
      ↔ (api.auto_tag_notes t note_ids all_notes recent apply).2 = [] := by
  unfold MLNotesAPI.auto_tag_notes
  split
  · exact iff_of_false (h _) (by simp [MLNotesAPI.make_request])
  · split
    · exact iff_of_false (h _) (by simp [MLNotesAPI.make_request])
    · split
      · exact iff_of_false (h _) (by simp [MLNotesAPI.make_request])
      · exact iff_of_true rfl rfl

/-- Witness for the amended C4 theorem at a concrete transport and input. -/
theorem selection_error_distinguishable_witness :
    ((MLNotesAPI.initDefault).auto_tag_notes okNull (some [1]) false 0 false).1
        = selectionErrorResult
      ↔ ((MLNotesAPI.initDefault).auto_tag_notes okNull (some [1]) false 0 false).2 = [] :=
  selection_error_distinguishable MLNotesAPI.initDefault okNull (some [1]) false 0 false
    (fun _ => by simp [okNull, resultOf, selectionErrorResult])

/-- C5 counterexample: the claimed single-slash join fails when the endpoint
lacks a leading slash: base "http://h/api/v1/" with endpoint "health" builds
the URL "http://h/api/v1health", not "http://h/api/v1/health". -/
theorem url_join_missing_slash_example :
    ((MLNotesAPI.init "http://h/api/v1/").make_request okNull "GET" "health" none none).2
      = [⟨"GET", "http://h/api/v1health", 30, none, none⟩]
    ∧ "http://h/api/v1health" ≠ "http://h/api/v1/health" :=
  ⟨rfl, by decide⟩

/-- C5 (amended): `__init__` strips every trailing slash from the base URL and
`_make_request` concatenates the endpoint directly, so whenever the endpoint
starts with exactly one slash (as every facade endpoint does) the built URL
has exactly one separating slash: the stripped base never ends in a slash and
the endpoint contributes exactly one. -/
theorem url_join_single_slash (base rest method : String) (t : Request → HttpOutcome)
    (jsonBody params : Option Json) (h : rest.data.head? ≠ some '/') :
    ((MLNotesAPI.init base).make_request t method ("/" ++ rest) jsonBody params).2.map Request.url
      = [pyRstripSlash base ++ ("/" ++ rest)]
    ∧ (pyRstripSlash base).data.getLast? ≠ some '/'
    ∧ ("/" ++ rest).data.head? = some '/'
    ∧ ("/" ++ rest).data.tail.head? ≠ some '/' := by
  refine ⟨rfl, pyRstripSlash_no_trailing_slash base, ?_, ?_⟩
  · rw [String.data_append]
    rfl
  · rw [String.data_append]
    exact h

/-- Witness for the amended C5 theorem at the concrete base
"http://h/api/v1/" and endpoint "/health". -/
theorem url_join_single_slash_witness :
    ((MLNotesAPI.init "http://h/api/v1/").make_request okNull "GET" ("/" ++ "health") none none).2.map Request.url
      = [pyRstripSlash "http://h/api/v1/" ++ ("/" ++ "health")]
    ∧ (pyRstripSlash "http://h/api/v1/").data.getLast? ≠ some '/'
    ∧ ("/" ++ "health").data.head? = some '/'
    ∧ ("/" ++ "health").data.tail.head? ≠ some '/' :=
  url_join_single_slash "http://h/api/v1/" "health" "GET" okNull none none (by decide)

/-- C6 counterexample: the spec-modelled orchestrator forwards a
caller-supplied overwrite=true into the payload, but the source
`auto_tag_notes` has no overwrite parameter and no call to it can ever
produce an overwrite field other than false. -/
theorem auto_tag_no_overwrite_argument :
    ((payloadOf ((MLNotesAPI.initDefault).auto_tag_notes_spec okNull (some [1]) false 0 false true)).bind
        (fun p => jsonLookup p "overwrite")) = some (Json.bool true)
    ∧ ∀ (api : MLNotesAPI) (t : Request → HttpOutcome) (note_ids : Option (List Int))
        (all_notes : Bool) (recent : Int) (apply : Bool),
        ((payloadOf (api.auto_tag_notes t note_ids all_notes recent apply)).bind
          (fun p => jsonLookup p "overwrite")) ≠ some (Json.bool true) := by
  refine ⟨rfl, ?_⟩
  intro api t note_ids all_notes recent apply
  unfold MLNotesAPI.auto_tag_notes
  split
  · simp [MLNotesAPI.make_request, payloadOf, jsonLookup, List.lookup]
  · split
    · simp [MLNotesAPI.make_request, payloadOf, jsonLookup, List.lookup]
    · split
      · simp [MLNotesAPI.make_request, payloadOf, jsonLookup, List.lookup]
      · simp [payloadOf]

/-- C6 (amended): `auto_tag_notes` accepts no overwrite argument; the
overwrite field of every payload it sends is the hardcoded value false. -/
theorem auto_tag_overwrite_hardcoded_false (api : MLNotesAPI) (t : Request → HttpOutcome)
    (note_ids : Option (List Int)) (all_notes : Bool) (recent : Int) (apply : Bool) :
    ((payloadOf (api.auto_tag_notes t note_ids all_notes recent apply)).bind
        (fun p => jsonLookup p "overwrite"))
      = (if all_notes then some (Json.bool false)
         else if recent > 0 then some (Json.bool false)
         else if pyTruthy note_ids then some (Json.bool false) else none) := by
  unfold MLNotesAPI.auto_tag_notes
  split
  · rfl
  · split
    · rfl
    · split
      · rfl
      · rfl

/-- C7: a call to `auto_tag_notes` with a valid selection issues exactly one
HTTP request, and with no valid selection exactly zero. -/
theorem auto_tag_exactly_one_call (api : MLNotesAPI) (t : Request → HttpOutcome)
    (note_ids : Option (List Int)) (all_notes : Bool) (recent : Int) (apply : Bool) :
    (api.auto_tag_notes t note_ids all_notes recent apply).2.length
      = (if all_notes then 1 else if recent > 0 then 1
         else if pyTruthy note_ids then 1 else 0) := by
  unfold MLNotesAPI.auto_tag_notes
  split
  · rfl
  · split
    · rfl
    · split
      · rfl
      · rfl

/-- C8: every HTTP request issued through the facade, whichever domain
operation produced it (auto-tagging included), carries the fixed timeout 30. -/
theorem every_call_timeout_30 (api : MLNotesAPI) (t : Request → HttpOutcome)
    (query title content tags : String) (use_vector auto_tag apply all_notes : Bool)
    (limit offset note_id sid recent : Int) (note_ids : Option (List Int)) :
    ((api.health_check t).2.all (fun r => r.timeout == 30)) = true
    ∧ ((api.search_notes t query limit use_vector).2.all (fun r => r.timeout == 30)) = true
    ∧ ((api.create_note t title content tags auto_tag).2.all (fun r => r.timeout == 30)) = true
    ∧ ((api.get_note t note_id).2.all (fun r => r.timeout == 30)) = true
    ∧ ((api.list_notes t limit offset).2.all (fun r => r.timeout == 30)) = true
    ∧ ((api.suggest_tags t sid).2.all (fun r => r.timeout == 30)) = true
    ∧ ((api.auto_tag_notes t note_ids all_notes recent apply).2.all (fun r => r.timeout == 30)) = true
    ∧ ((api.get_stats t).2.all (fun r => r.timeout == 30)) = true := by
  refine ⟨rfl, rfl, rfl, rfl, rfl, rfl, ?_, rfl⟩
  unfold MLNotesAPI.auto_tag_notes
  split
  · rfl
  · split
    · rfl
    · split
      · rfl
      · rfl

/-- C9: `search_notes` issues exactly one POST to /notes/search whose JSON
body holds exactly the fields query, limit and use_vector with the caller
arguments, and the Python defaults give limit 5 and use_vector true. -/
theorem search_notes_request (api : MLNotesAPI) (t : Request → HttpOutcome)
    (query : String) (limit : Int) (use_vector : Bool) :
    (api.search_notes t query limit use_vector).2
      = [⟨"POST", api.base_url ++ "/notes/search", 30,
          some (Json.obj [("query", Json.str query), ("limit", Json.num limit),
            ("use_vector", Json.bool use_vector)]), none⟩]
    ∧ (api.search_notes_default t query).2
      = [⟨"POST", api.base_url ++ "/notes/search", 30,
          some (Json.obj [("query", Json.str query), ("limit", Json.num 5),
            ("use_vector", Json.bool true)]), none⟩] :=
  ⟨rfl, rfl⟩

/-- C10: with all_notes false and recent non-positive, the Recent mode is
never selected: the call falls through to the note_ids check, selecting
ByIds for a truthy note_ids list and failing with the local selection error
when note_ids is absent. -/
theorem auto_tag_recent_nonpositive (api : MLNotesAPI) (t : Request → HttpOutcome)
    (note_ids : Option (List Int)) (apply : Bool) (recent : Int) (h : recent ≤ 0) :
    payloadOf (api.auto_tag_notes t note_ids false recent apply)
      = (if pyTruthy note_ids then
          some (Json.obj [("apply", Json.bool apply), ("overwrite", Json.bool false),
            ("note_ids", Json.arr ((note_ids.getD []).map Json.num))])
         else none)
    ∧ api.auto_tag_notes t none false recent apply = (selectionErrorResult, []) := by
  have hr : ¬ recent > 0 := by omega
  constructor
  · unfold MLNotesAPI.auto_tag_notes
    rw [if_neg (by simp), if_neg hr]
    split
    · rfl
    · rfl
  · unfold MLNotesAPI.auto_tag_notes
    rw [if_neg (by simp), if_neg hr]
    rfl

/-- Witness for the C10 theorem at recent equal to minus one, with and
without explicit note IDs. -/
theorem auto_tag_recent_nonpositive_witness :
    (payloadOf ((MLNotesAPI.initDefault).auto_tag_notes okNull (some [7]) false (-1) false)
      = (if pyTruthy (some [7]) then
          some (Json.obj [("apply", Json.bool false), ("overwrite", Json.bool false),
            ("note_ids", Json.arr (([7] : List Int).map Json.num))])
         else none))
    ∧ (MLNotesAPI.initDefault).auto_tag_notes okNull none false (-1) false
        = (selectionErrorResult, []) :=
  auto_tag_recent_nonpositive MLNotesAPI.initDefault okNull (some [7]) false (-1) (by decide)


end MLNotes
